import Mathlib

/-!
Verification of the narrative-generation core of the brain-tumor-detection
backend (`backend/app/services/ai_service.py`), together with the two
auxiliary heuristics (`brain_anatomy.py`, `tumor_classifier.py`).

The Python code is shallowly embedded:
* Python strings are modelled as `List Char` (`Str`); `str.strip`,
  `str.split(sep)` and the `in` substring test are modelled by executable
  list functions with Python's semantics.
* The external Gemini call is an opaque capability; its behaviour at the
  single call an operation makes is a value of `ExtEnv`
  (`none` = the call, or reading `.text`, raised an exception).
* `json.loads` is modelled by an executable recursive-descent parser
  `jsonParse` into the `Json` inductive.  Modelling restrictions (noted at
  the definitions): numeric literals are integers only, `\u` escapes are
  unsupported, raw control characters inside strings are accepted; no
  claim depends on these corners.
* Python floats (confidences, attention scores) are modelled as `ℚ`;
  the `"{:.1f}"` rendering is modelled by `fmt1` (round half to even).
-/

namespace BTD

/-- Python strings, modelled as lists of characters. -/
abbrev Str := List Char

/-- The whitespace set stripped by Python's `str.strip()`. -/
def isWs (c : Char) : Bool :=
  c = ' ' || c = '\t' || c = '\n' || c = '\r' || c = '\x0b' || c = '\x0c'

/-- Python `s.strip()`: drop whitespace from both ends. -/
def pyStrip (s : Str) : Str :=
  ((s.dropWhile isWs).reverse.dropWhile isWs).reverse

/-- `leadsWith pat s`: `pat` is a prefix of `s`. -/
def leadsWith : Str → Str → Bool
  | [], _ => true
  | _ :: _, [] => false
  | p :: ps, c :: cs => if p = c then leadsWith ps cs else false

/-- Scan for the first occurrence of `sep`; return the text before it and
the text after it (`none` when `sep` does not occur).  This is the
primitive underlying Python's `s.split(sep)`: `split(sep)[0]` is the
`before` component and `split(sep)[1]` is the `after` component truncated
at the following occurrence of `sep`. -/
def findSplit (sep : Str) : Str → Option (Str × Str)
  | [] => none
  | c :: rest =>
    if leadsWith sep (c :: rest) then some ([], List.drop sep.length (c :: rest))
    else
      match findSplit sep rest with
      | some (pre, post) => some (c :: pre, post)
      | none => none

/-- Python `sep in s` (substring containment). -/
def containsSub (sep s : Str) : Bool := (findSplit sep s).isSome

/-- Python `s.split(sep)[0]`: the text before the first occurrence of
`sep` (all of `s` when `sep` does not occur). -/
def beforeFirst (sep s : Str) : Str :=
  match findSplit sep s with
  | some (pre, _) => pre
  | none => s

/-- The text after the first occurrence of `sep` (`[]` when `sep` does not
occur; the callers below only use it under a `containsSub` guard, where
Python's `split(sep)[1]` cannot raise). -/
def afterFirst (sep s : Str) : Str :=
  match findSplit sep s with
  | some (_, post) => post
  | none => []

/-- The generic markdown fence marker. -/
def fence3 : Str := ("```").toList

/-- The JSON-labelled markdown fence marker. -/
def fenceJson : Str := ("```json").toList

/--
The pre-parse fence-stripping step shared (textually duplicated) by
`generate_differential_diagnosis` (ai_service.py lines 262-268) and
`generate_risk_assessment` (lines 374-380):

    response_text = response.text.strip()
    if "```json" in response_text:
        response_text = response_text.split("```json")[1].split("```")[0].strip()
    elif "```" in response_text:
        response_text = response_text.split("```")[1].split("```")[0].strip()

`s.split(a)[1].split(b)[0]` is the text after the first occurrence of `a`
truncated at the next occurrence of `a`, then truncated at the first
occurrence of `b`.  In both branches every occurrence of the outer
separator begins with `"``​`"`, so truncating at the next `"``​`"` subsumes
the truncation at the next outer separator, and the composition equals
`beforeFirst fence3 (afterFirst sep s)`. -/
def extractJson (raw : Str) : Str :=
  if containsSub fenceJson (pyStrip raw) then
    pyStrip (beforeFirst fence3 (afterFirst fenceJson (pyStrip raw)))
  else if containsSub fence3 (pyStrip raw) then
    pyStrip (beforeFirst fence3 (afterFirst fence3 (pyStrip raw)))
  else pyStrip raw

/-! ## JSON values and the model of `json.loads` -/

/-- JSON values (the possible results of `json.loads`). -/
inductive Json where
  | null : Json
  | bool : Bool → Json
  | num : Int → Json
  | str : Str → Json
  | arr : List Json → Json
  | obj : List (Str × Json) → Json

/-- Python `len(v)` on a decoded JSON value: defined for strings, arrays
and objects, raises `TypeError` (`none`) on numbers, booleans and `None`. -/
def pyLen : Json → Option Nat
  | Json.str s => some s.length
  | Json.arr l => some l.length
  | Json.obj f => some f.length
  | _ => none

/-- Whether a decoded JSON value is a Python `dict` (the only values on
which the attribute access `risk.get(...)` does not raise). -/
def isPyDict : Json → Bool
  | Json.obj _ => true
  | _ => false

/-- JSON inter-token whitespace. -/
def isJsonWs (c : Char) : Bool :=
  c = ' ' || c = '\t' || c = '\n' || c = '\r'

/-- JSON string escapes.  Modelling restriction: `\uXXXX` is treated as
unparseable. -/
def escChar : Char → Option Char
  | '"' => some '"'
  | '\\' => some '\\'
  | '/' => some '/'
  | 'b' => some (Char.ofNat 8)
  | 'f' => some (Char.ofNat 12)
  | 'n' => some '\n'
  | 'r' => some '\r'
  | 't' => some '\t'
  | _ => none

/-- Parse the body of a JSON string after the opening quote; returns the
decoded characters and the input after the closing quote. -/
def parseStringBody : Str → Option (Str × Str)
  | [] => none
  | '"' :: r => some ([], r)
  | '\\' :: e :: r =>
    match escChar e with
    | some c =>
      match parseStringBody r with
      | some (b, r') => some (c :: b, r')
      | none => none
    | none => none
  | '\\' :: [] => none
  | c :: r =>
    match parseStringBody r with
    | some (b, r') => some (c :: b, r')
    | none => none

/-- Decimal digits to a natural number. -/
def digitsToNat : Str → Nat → Nat
  | [], acc => acc
  | c :: r, acc => digitsToNat r (acc * 10 + (c.toNat - ('0').toNat))

/-- Parse a numeric literal.  Modelling restriction: only integer
literals; a fractional or exponent part makes the whole parse fail. -/
def parseNum (s : Str) : Option (Json × Str) :=
  let sgn : Bool × Str := match s with
    | '-' :: r => (true, r)
    | _ => (false, s)
  let ds := List.takeWhile Char.isDigit sgn.2
  let rest := List.dropWhile Char.isDigit sgn.2
  if ds = [] then none
  else
    match rest with
    | '.' :: _ => none
    | 'e' :: _ => none
    | 'E' :: _ => none
    | _ =>
      let n : Int := Int.ofNat (digitsToNat ds 0)
      some (Json.num (if sgn.1 then -n else n), rest)

mutual

/-- Parse one JSON value (fuel-indexed recursive descent). -/
def parseVal : Nat → Str → Option (Json × Str)
  | 0, _ => none
  | Nat.succ fu, s =>
    let s := List.dropWhile isJsonWs s
    match s with
    | [] => none
    | 'n' :: r => if leadsWith (("ull").toList) r then some (Json.null, List.drop 3 r) else none
    | 't' :: r => if leadsWith (("rue").toList) r then some (Json.bool true, List.drop 3 r) else none
    | 'f' :: r => if leadsWith (("alse").toList) r then some (Json.bool false, List.drop 4 r) else none
    | '"' :: r =>
      match parseStringBody r with
      | some (b, r') => some (Json.str b, r')
      | none => none
    | '[' :: r =>
      let r := List.dropWhile isJsonWs r
      match r with
      | ']' :: r2 => some (Json.arr [], r2)
      | _ => parseArrRest fu r []
    | '\x7b' :: r =>
      let r := List.dropWhile isJsonWs r
      match r with
      | '\x7d' :: r2 => some (Json.obj [], r2)
      | _ => parseObjRest fu r []
    | c :: r => if c = '-' || c.isDigit then parseNum (c :: r) else none

/-- Parse the elements of a non-empty array, after `[` and leading
whitespace. -/
def parseArrRest : Nat → Str → List Json → Option (Json × Str)
  | 0, _, _ => none
  | Nat.succ fu, s, acc =>
    match parseVal fu s with
    | none => none
    | some (v, r) =>
      let r := List.dropWhile isJsonWs r
      match r with
      | ',' :: r2 => parseArrRest fu (List.dropWhile isJsonWs r2) (acc ++ [v])
      | ']' :: r2 => some (Json.arr (acc ++ [v]), r2)
      | _ => none

/-- Parse the members of a non-empty object, after `{` and leading
whitespace.  Modelling restriction: duplicate keys are kept (Python keeps
the last), which no claim exercises. -/
def parseObjRest : Nat → Str → List (Str × Json) → Option (Json × Str)
  | 0, _, _ => none
  | Nat.succ fu, s, acc =>
    match s with
    | '"' :: r =>
      match parseStringBody r with
      | none => none
      | some (k, r1) =>
        match List.dropWhile isJsonWs r1 with
        | ':' :: r2 =>
          match parseVal fu r2 with
          | none => none
          | some (v, r3) =>
            match List.dropWhile isJsonWs r3 with
            | ',' :: r4 => parseObjRest fu (List.dropWhile isJsonWs r4) (acc ++ [(k, v)])
            | '\x7d' :: r4 => some (Json.obj (acc ++ [(k, v)]), r4)
            | _ => none
        | _ => none
    | _ => none

end

/-- Model of `json.loads`: parse one value, allow surrounding whitespace,
require the whole input to be consumed. -/
def jsonParse (s : Str) : Option Json :=
  match parseVal (2 * s.length + 4) s with
  | some (v, rest) => if List.dropWhile isJsonWs rest = [] then some v else none
  | none => none

/-! ## Numeric rendering

`"{x:.1f}"` formatting of a float; modelled on `ℚ` with round half to
even.  No claim depends on the rendered digits. -/

/-- Round to the nearest integer, ties to even. -/
def roundHalfEven (q : ℚ) : ℤ :=
  let f : ℤ := ⌊q⌋
  let r : ℚ := q - (f : ℚ)
  if r < 1/2 then f
  else if 1/2 < r then f + 1
  else if f % 2 = 0 then f else f + 1

/-- Python `f"{q:.1f}"`. -/
def fmt1 (q : ℚ) : String :=
  let n : ℤ := roundHalfEven (q * 10)
  let m : ℕ := n.natAbs
  (if n < 0 then "-" else "") ++ toString (m / 10) ++ "." ++ toString (m % 10)

/-! ## Data model (spec section 3) -/

/-- The structured prediction record consumed by the generator
(`result` dictionary of `generate_analysis`). -/
structure PredictionResult where
  prediction : String
  confidence : ℚ
  tumor_type : Option String
  type_confidence : ℚ
deriving DecidableEq

/-- One entry of the fallback differential table
(`_generate_template_differential`). -/
structure DifferentialEntry where
  diagnosis : String
  likelihood : ℕ
  reasoning : String
  key_feature : String
deriving DecidableEq

/-- The fallback risk-assessment record (`_generate_template_risk`). -/
structure RiskAssessment where
  severity_score : ℕ
  urgency_level : String
  timeline : String
  reasoning : String
deriving DecidableEq

/-- A Python dict of a `DifferentialEntry` literal, as a JSON value (the
two paths of `generate_differential_diagnosis` both hand the caller plain
lists/dicts, unified here as `Json`). -/
def entryToJson (e : DifferentialEntry) : Json :=
  Json.obj [(("diagnosis").toList, Json.str e.diagnosis.toList),
            (("likelihood").toList, Json.num (Int.ofNat e.likelihood)),
            (("reasoning").toList, Json.str e.reasoning.toList),
            (("key_feature").toList, Json.str e.key_feature.toList)]

/-- A fallback differential list as a JSON value. -/
def entriesToJson (l : List DifferentialEntry) : Json :=
  Json.arr (l.map entryToJson)

/-- A fallback risk record as a JSON value. -/
def riskToJson (r : RiskAssessment) : Json :=
  Json.obj [(("severity_score").toList, Json.num (Int.ofNat r.severity_score)),
            (("urgency_level").toList, Json.str r.urgency_level.toList),
            (("timeline").toList, Json.str r.timeline.toList),
            (("reasoning").toList, Json.str r.reasoning.toList)]

/-! ## AIService construction (ai_service.py lines 24-48) -/

/-- ASCII lowercasing of one character (Python `str.lower()`; modelling
restriction: non-ASCII case mappings are ignored, which no claim
exercises — the flag is compared with `"true"`). -/
def lowerChar (c : Char) : Char :=
  if 'A' ≤ c ∧ c ≤ 'Z' then Char.ofNat (c.toNat + 32) else c

/-- Python `s.lower()`. -/
def pyLower (s : String) : String :=
  ⟨s.data.map lowerChar⟩

/-- The configuration inputs read once at construction: the three
environment variables and the availability/behaviour of the external
client library. -/
structure InitEnv where
  apiKey : String
  modelName : String
  useAiRaw : String
  genaiAvailable : Bool
  constructOk : Bool

/-- The construction-time state every operation branches on:
`self.use_ai` and whether `self.model` is not `None`. -/
structure AIService where
  use_ai : Bool
  hasModel : Bool
  model_name : String
deriving DecidableEq

/-- `AIService.__init__`: `use_ai` is the lowercased enable flag compared
with `"true"`; if `use_ai and self.api_key and GENAI_AVAILABLE`, a client
is constructed, and on a construction failure `use_ai` is set to `False`
(the model stays `None`). -/
def AIService.init (env : InitEnv) : AIService :=
  let use_ai := pyLower env.useAiRaw == "true"
  if use_ai && !(env.apiKey == "") && env.genaiAvailable then
    if env.constructOk then ⟨true, true, env.modelName⟩
    else ⟨false, false, env.modelName⟩
  else ⟨use_ai, false, env.modelName⟩

/-- The guard `self.use_ai and self.model` that every operation uses to
decide whether to attempt the external path. -/
def externalAttempted (svc : AIService) : Bool :=
  svc.use_ai && svc.hasModel

/-- The behaviour of the one external `generate_content` call an
operation makes: `none` models the call (or reading `response.text`)
raising any exception; `some t` models it returning text `t`. -/
structure ExtEnv where
  response : Option String

/-! ## Narrative templates and operations -/

/-- The fixed-structure fallback narrative (`_generate_template`,
ai_service.py lines 426-487): a binary switch on `prediction` between two
literal templates with the confidence percentage interpolated. -/
def _generate_template (result : PredictionResult) : String :=
  let confidence := result.confidence * 100
  if result.prediction = "tumor" then
    "**Executive Summary**\n\nThe AI model has detected potential tumor presence with " ++ fmt1 confidence ++ "% confidence. This finding requires immediate medical evaluation and confirmatory imaging.\n\n**Detailed Analysis**\n\nThe deep learning model analyzed the MRI scan through multiple convolutional layers, identifying patterns associated with abnormal tissue growth. Key indicators include irregular tissue density distributions, asymmetric structural patterns, and texture heterogeneity suggesting cellular abnormalities.\n\n**Grad-CAM Interpretation**\n\nThe attention heatmap highlights regions where the model detected strongest anomalous patterns. Red and yellow areas indicate high-attention zones that contributed most to the tumor classification.\n\n**Clinical Significance**\n\nThese findings suggest the presence of a space-occupying lesion requiring urgent evaluation. The confidence level indicates clear pattern recognition by the AI system.\n\n**Recommendations**\n\n- Immediate consultation with a neurologist or neuro-oncologist\n- Additional imaging: Contrast-enhanced MRI, CT scan\n- Consider biopsy for definitive diagnosis\n- Timeline: Urgent evaluation within 24-48 hours\n\n**Important Notice**\n\nThis AI analysis is a screening tool and must be validated by qualified medical professionals. All findings should be confirmed through comprehensive diagnostic procedures."
  else
    "**Executive Summary**\n\nThe AI model did not identify significant tumor indicators in this scan (" ++ fmt1 confidence ++ "% confidence). However, clinical correlation is essential.\n\n**Detailed Analysis**\n\nThe neural network processed the MRI scan and found tissue density, structural symmetry, and texture patterns consistent with healthy brain anatomy. No significant deviations from normal were detected across multiple analytical layers.\n\n**Grad-CAM Interpretation**\n\nThe attention map shows distributed focus without concentrated hotspots, indicating no specific regions triggered tumor-associated patterns.\n\n**Clinical Significance**\n\nWhile encouraging, this result should be interpreted within the full clinical context including symptoms, history, and physical examination.\n\n**Recommendations**\n\n- Continue routine health monitoring\n- Report any neurological symptoms to your healthcare provider\n- Follow recommended screening schedule\n- Maintain healthy lifestyle practices\n\n**Important Notice**\n\nThis AI screening does not replace regular medical checkups. Always consult healthcare professionals for comprehensive neurological assessment and personalized medical advice."

/-- `generate_analysis` (lines 50-71): external path only when
`self.use_ai and self.model`; the raw response text is returned verbatim;
any exception falls back to the template. -/
def generate_analysis (svc : AIService) (env : ExtEnv) (result : PredictionResult) : String :=
  if svc.use_ai && svc.hasModel then
    match env.response with
    | some text => text
    | none => _generate_template result
  else
    _generate_template result

/-- The attention bucketing
`"high" if attention_score > 0.5 else "moderate" if attention_score > 0.2 else "low"`
used by both fallback templates of `explain_region` (lines 166 and 197). -/
def attentionLevel (attention_score : ℚ) : String :=
  if attention_score > 1/2 then "high"
  else if attention_score > 1/5 then "moderate"
  else "low"

/-- The phrasing of model focus inside the external prompt of
`explain_region` (line 182), selected by the same thresholds. -/
def focusPhrase (attention_score : ℚ) : String :=
  if attention_score > 1/2 then "focused heavily"
  else if attention_score > 1/5 then "showed moderate interest in"
  else "showed minimal focus on"

/-- The disabled-mode fallback template of `explain_region` (line 167). -/
def explainRegionFallback (region_name region_function : String)
    (attention_score : ℚ) (prediction : String) (confidence : ℚ) : String :=
  "The " ++ region_name ++ " shows " ++ attentionLevel attention_score ++
  " attention from the AI model. This region is responsible for " ++
  region_function.toLower ++
  ". The model's focus here contributes to the overall " ++ prediction ++
  " prediction with " ++ fmt1 (confidence * 100) ++ "% confidence."

/-- The exception-path fallback template of `explain_region` (line 198). -/
def explainRegionExcFallback (region_name region_function : String)
    (attention_score : ℚ) (prediction : String) : String :=
  "The " ++ region_name ++ " is responsible for " ++ region_function.toLower ++
  ". The AI model showed " ++ attentionLevel attention_score ++
  " attention to this region during analysis, which contributed to the " ++
  prediction ++ " prediction."

/-- The external prompt of `explain_region` (lines 172-188). -/
def explainRegionPrompt (region_name region_function : String)
    (attention_score : ℚ) (prediction : String) (confidence : ℚ) : String :=
  "You are a medical AI assistant explaining brain MRI analysis to patients.\n\n**Brain Region Clicked:** " ++
  region_name ++ "\n**Region Function:** " ++ region_function ++
  "\n**Model Attention:** " ++ fmt1 (attention_score * 100) ++
  "% (how intensely the AI focused on this area)\n**Overall Diagnosis:** " ++
  prediction ++ "\n**Confidence:** " ++ fmt1 (confidence * 100) ++
  "%\n\n**Task:** In 3-4 sentences, explain:\n1. What this brain region does (in simple terms)\n2. Why the AI model " ++
  focusPhrase attention_score ++
  " this area\n3. What this means for the diagnosis\n\n**Tone:** Educational but accessible. Medical accuracy is important but avoid jargon.\n**Format:** Plain text, conversational.\n\nGenerate explanation:"

/-- `explain_region` (lines 143-198). -/
def explain_region (svc : AIService) (env : ExtEnv)
    (region_name region_function : String) (attention_score : ℚ)
    (prediction : String) (confidence : ℚ) : String :=
  if !(svc.use_ai && svc.hasModel) then
    explainRegionFallback region_name region_function attention_score prediction confidence
  else
    match env.response with
    | some text => text
    | none => explainRegionExcFallback region_name region_function attention_score prediction

/-- The fallback differential table (`_generate_template_differential`,
lines 282-310). -/
def _generate_template_differential (prediction : String)
    (tumor_type : Option String) : List DifferentialEntry :=
  if prediction = "tumor" then
    if tumor_type = some ("Glioma") then
      [⟨"Glioblastoma", 70, "Most aggressive glioma type, common in adults", "Infiltrative growth"⟩,
       ⟨"Anaplastic Astrocytoma", 20, "High-grade glioma, less aggressive than GBM", "Grade III malignancy"⟩,
       ⟨"Metastatic Tumor", 10, "Rule out metastasis from systemic cancer", "History dependent"⟩]
    else if tumor_type = some ("Meningioma") then
      [⟨"Benign Meningioma", 85, "Most common, slow-growing, good prognosis", "Dura attachment"⟩,
       ⟨"Atypical Meningioma", 12, "Grade II, higher recurrence risk", "Increased mitoses"⟩,
       ⟨"Hemangiopericytoma", 3, "Rare dural-based tumor", "Aggressive behavior"⟩]
    else
      [⟨"Primary Brain Tumor", 60, "Imaging consistent with primary CNS neoplasm", "Intrinsic to brain"⟩,
       ⟨"Metastatic Disease", 25, "Consider systemic malignancy", "Multiple possible"⟩,
       ⟨"Abscess", 10, "Infectious etiology to consider", "Ring enhancement"⟩,
       ⟨"Demyelinating Lesion", 5, "MS or other demyelinating process", "Periventricular"⟩]
  else
    [⟨"Normal Anatomy", 80, "No significant abnormality detected", "Healthy tissue"⟩,
     ⟨"Age-Related Changes", 12, "Expected involutional changes", "Non-pathologic"⟩,
     ⟨"White Matter Changes", 5, "Chronic small vessel disease", "Vascular etiology"⟩,
     ⟨"Artifact", 3, "Motion or technical artifact", "Non-diagnostic"⟩]

/-- `generate_differential_diagnosis` (lines 200-280): the external path
strips fences, runs `json.loads`, then logs
`len(differential)` — so a decoded value on which `len` raises also falls
back — and returns the decoded value verbatim (no schema check). -/
def generate_differential_diagnosis (svc : AIService) (env : ExtEnv)
    (prediction : String) (confidence : ℚ) (tumor_type : Option String) : Json :=
  if !(svc.use_ai && svc.hasModel) then
    entriesToJson (_generate_template_differential prediction tumor_type)
  else
    match env.response with
    | none => entriesToJson (_generate_template_differential prediction tumor_type)
    | some text =>
      match jsonParse (extractJson text.toList) with
      | none => entriesToJson (_generate_template_differential prediction tumor_type)
      | some v =>
        match pyLen v with
        | some _ => v
        | none => entriesToJson (_generate_template_differential prediction tumor_type)

/-- The fallback risk table (`_generate_template_risk`, lines 394-424).
The `confidence` parameter is accepted and never read. -/
def _generate_template_risk (prediction : String) (confidence : ℚ)
    (tumor_type : Option String) : RiskAssessment :=
  if prediction = "tumor" then
    if tumor_type = some ("Glioma") then
      ⟨8, "urgent", "Consult neurosurgeon within 24-48 hours",
       "High-grade glioma suspected; requires prompt specialist evaluation and treatment planning"⟩
    else if tumor_type = some ("Meningioma") then
      ⟨5, "routine", "Schedule neurosurgeon consultation within 1-2 weeks",
       "Meningioma typically slow-growing; planned evaluation and monitoring appropriate"⟩
    else
      ⟨7, "urgent", "See specialist within 48-72 hours",
       "Brain tumor detected; requires timely medical evaluation for diagnosis and treatment planning"⟩
  else
    ⟨2, "routine", "Continue routine health monitoring",
     "No significant abnormalities detected; routine follow-up care recommended"⟩

/-- `generate_risk_assessment` (lines 312-392): same pipeline as the
differential; the success log calls `risk.get(...)`, which raises on any
non-dict value, so only decoded objects are returned verbatim. -/
def generate_risk_assessment (svc : AIService) (env : ExtEnv)
    (prediction : String) (confidence : ℚ) (tumor_type : Option String) : Json :=
  if !(svc.use_ai && svc.hasModel) then
    riskToJson (_generate_template_risk prediction confidence tumor_type)
  else
    match env.response with
    | none => riskToJson (_generate_template_risk prediction confidence tumor_type)
    | some text =>
      match jsonParse (extractJson text.toList) with
      | none => riskToJson (_generate_template_risk prediction confidence tumor_type)
      | some v =>
        if isPyDict v then v
        else riskToJson (_generate_template_risk prediction confidence tumor_type)

/-! ## Anatomy region lookup (brain_anatomy.py) -/

/-- A `{name, function}` record returned by `identify_region`. -/
structure Region where
  name : String
  function : String
deriving DecidableEq

def frontalLobe : Region :=
  ⟨"Frontal Lobe",
   "Controls motor function, problem solving, spontaneity, memory, language, initiation, judgement, impulse control, and social behavior"⟩

def centralParietal : Region :=
  ⟨"Central/Parietal Region",
   "Processes sensory information, spatial awareness, and coordinates movement"⟩

def temporalLobe : Region :=
  ⟨"Temporal Lobe",
   "Processes auditory information, memory formation, speech, and emotional responses"⟩

def deepBrainStructures : Region :=
  ⟨"Deep Brain Structures",
   "Includes thalamus, basal ganglia - controls movement, emotions, and relays sensory information"⟩

def brainstem : Region :=
  ⟨"Brainstem",
   "Controls vital functions like breathing, heart rate, blood pressure, and consciousness"⟩

def cerebellum : Region :=
  ⟨"Cerebellum",
   "Coordinates voluntary movements, balance, posture, and motor learning"⟩

def occipitalLobe : Region :=
  ⟨"Occipital Lobe",
   "Primary visual processing center, interprets visual information from the eyes"⟩

/-- The trailing literal of `identify_region` (brain_anatomy.py lines
78-81).  In the source it follows an `if/elif/else` chain in which every
branch returns, so it is dead code. -/
def brainTissueFallback : Region :=
  ⟨"Brain Tissue", "General brain tissue region"⟩

/-- The seven named regions of the 3x3 grid. -/
def sevenRegions : List Region :=
  [frontalLobe, centralParietal, temporalLobe, deepBrainStructures,
   brainstem, cerebellum, occipitalLobe]

/-- `BrainAnatomyMapper.identify_region` (lines 13-81): vertical thirds
(`rel_y < 0.33`, `0.33 <= rel_y < 0.67`, else) crossed with horizontal
thirds; the bottom row checks center first (Brainstem), then
`bottom_third and (left_third or right_third)` (Cerebellum), else
Occipital. -/
def identify_region (rel_x rel_y : ℚ) : Region :=
  if rel_y < 33/100 then
    if rel_x < 33/100 ∨ 67/100 ≤ rel_x then frontalLobe
    else centralParietal
  else if 33/100 ≤ rel_y ∧ rel_y < 67/100 then
    if rel_x < 33/100 ∨ 67/100 ≤ rel_x then temporalLobe
    else deepBrainStructures
  else
    if 33/100 ≤ rel_x ∧ rel_x < 67/100 then brainstem
    else if 67/100 ≤ rel_y ∧ (rel_x < 33/100 ∨ 67/100 ≤ rel_x) then cerebellum
    else occipitalLobe

/-! ## Tumor-type heuristic (tumor_classifier.py) -/

/-- The random draws `TumorClassifier._classify_heuristic` can make: the
value of `random.uniform(-0.05, 0.05)` and the index picked by
`random.choice` (reduced modulo the list length). -/
structure RandomSource where
  uniformFactor : ℚ
  choiceIdx : ℕ

/-- The dictionary returned by `TumorClassifier.classify`.  `prevalence`
is `none` on the no-tumor path, modelling the key being absent from that
literal dict. -/
structure ClassificationResult where
  type : Option String
  confidence : ℚ
  characteristics : List String
  description : String
  prevalence : Option String
  reasoning : String
deriving DecidableEq

/-- A value of the `TUMOR_TYPES` class dictionary. -/
structure TumorTypeInfo where
  confidence_base : ℚ
  characteristics : List String
  description : String
  prevalence : String
deriving DecidableEq

/-- `TumorClassifier.TUMOR_TYPES` (insertion order preserved). -/
def TUMOR_TYPES : List (String × TumorTypeInfo) :=
  [("Glioma",
    ⟨70/100,
     ["Infiltrative growth pattern", "Irregular boundaries",
      "Variable density patterns", "Often located in cerebral hemispheres"],
     "Most common primary brain tumor arising from glial cells",
     "High (40-50% of brain tumors)"⟩),
   ("Meningioma",
    ⟨65/100,
     ["Well-defined borders", "Dura-based attachment",
      "Homogeneous density", "Compressive rather than infiltrative"],
     "Tumor originating from meninges (brain coverings)",
     "Common (30-35% of brain tumors)"⟩),
   ("Pituitary Adenoma",
    ⟨60/100,
     ["Sellar/parasellar location", "Well-circumscribed mass",
      "May cause hormonal symptoms", "Proximity to optic chiasm"],
     "Benign tumor of the pituitary gland",
     "Moderate (10-15% of brain tumors)"⟩)]

/-- Lookup in `TUMOR_TYPES`; the default is never reached for the keys
`_classify_heuristic` produces. -/
def lookupTumorType (t : String) : TumorTypeInfo :=
  match TUMOR_TYPES.find? (fun p => p.1 == t) with
  | some p => p.2
  | none => ⟨0, [], "", ""⟩

/-- `random.choice(lst)` given the drawn index. -/
def pickChoice (idx : ℕ) (lst : List String) : String :=
  lst.getD (idx % lst.length) ""

/-- `TumorClassifier._classify_heuristic` (lines 86-107). -/
def _classify_heuristic (rng : RandomSource) (detection_confidence : ℚ) :
    String × ℚ :=
  let random_factor := rng.uniformFactor
  if detection_confidence > 85/100 then
    ("Glioma", min (80/100 + random_factor) (95/100))
  else if detection_confidence > 70/100 then
    let types := ["Glioma", "Meningioma", "Meningioma"]
    (pickChoice rng.choiceIdx types, min (70/100 + random_factor) (85/100))
  else
    (pickChoice rng.choiceIdx (TUMOR_TYPES.map (fun p => p.1)),
     min (60/100 + random_factor) (75/100))

/-- `TumorClassifier._generate_reasoning` (lines 109-119).  The source
indexes `reasoning_templates[tumor_type]`; for any other key the lookup
would raise, which `classify` never triggers; the model returns `""`
there. -/
def _generate_reasoning (tumor_type : String) (confidence : ℚ) : String :=
  let confidence_level :=
    if confidence > 75/100 then "high"
    else if confidence > 60/100 then "moderate"
    else "preliminary"
  if tumor_type = "Glioma" then
    "Based on imaging patterns showing infiltrative characteristics, there is " ++
    confidence_level ++
    " confidence this represents a glioma. The irregular borders and tissue involvement are typical of glial cell tumors."
  else if tumor_type = "Meningioma" then
    "Imaging features suggest " ++ confidence_level ++
    " probability of meningioma. The well-defined borders and attachment patterns are characteristic of meningeal origin tumors."
  else if tumor_type = "Pituitary Adenoma" then
    "Location and imaging characteristics indicate " ++ confidence_level ++
    " likelihood of pituitary adenoma. The sellar region involvement and mass characteristics are consistent with pituitary lesions."
  else ""

/-- `TumorClassifier.classify` (lines 51-84). -/
def classify (rng : RandomSource) (confidence : ℚ) (prediction : String) :
    ClassificationResult :=
  if prediction ≠ "tumor" then
    ⟨none, 0, [], "", none, "No tumor detected"⟩
  else
    let tc := _classify_heuristic rng confidence
    let info := lookupTumorType tc.1
    ⟨some tc.1, tc.2, info.characteristics, info.description,
     some info.prevalence, _generate_reasoning tc.1 tc.2⟩

/-! ## Auxiliary definitions used by the verification -/

/-- The backtick character. -/
def btick : Char := Char.ofNat 96

/-- The markdown fence wrapping `tag\nX\n```​` around a body `X`. -/
def wrapFence (tag X : Str) : Str :=
  tag ++ ('\n' :: (X ++ ('\n' :: fence3)))

/-- The sum of the `likelihood` fields of a differential list. -/
def sumLikelihood (l : List DifferentialEntry) : ℕ :=
  (l.map DifferentialEntry.likelihood).sum

/-- Key lookup in a decoded JSON object. -/
def jlookup (fs : List (Str × Json)) (k : Str) : Option Json :=
  match fs.find? (fun p => p.1 == k) with
  | some p => some p.2
  | none => none

/-- The `DifferentialEntry` shape stated from the spec's words (section 3:
`{diagnosis: string, likelihood: integer 0-100, reasoning: string,
key_feature: string}`), for comparison with the code's behaviour. -/
def specEntryShape : Json → Bool
  | Json.obj fs =>
    (match jlookup fs (("diagnosis").toList) with
     | some (Json.str _) => true
     | _ => false) &&
    (match jlookup fs (("likelihood").toList) with
     | some (Json.num n) => decide (0 ≤ n ∧ n ≤ 100)
     | _ => false) &&
    (match jlookup fs (("reasoning").toList) with
     | some (Json.str _) => true
     | _ => false) &&
    (match jlookup fs (("key_feature").toList) with
     | some (Json.str _) => true
     | _ => false)
  | _ => false

/-- The expected differential shape stated from the spec's words: a JSON
array of `DifferentialEntry` objects. -/
def specDifferentialShape : Json → Bool
  | Json.arr es => es.all specEntryShape
  | _ => false

/-! ## Lemmas about the fence-extraction pipeline -/

theorem fence3_def : fence3 = [btick, btick, btick] := by decide

theorem fenceJson_def :
    fenceJson = btick :: btick :: btick :: ('j' :: 's' :: 'o' :: 'n' :: []) := by decide

theorem leadsWith_append_self (p t : Str) : leadsWith p (p ++ t) = true := by
  induction p with
  | nil => rfl
  | cons a as ih => simp [leadsWith, ih]

theorem leadsWith_of_append (p q : Str) :
    ∀ t, leadsWith (p ++ q) t = true → leadsWith p t = true := by
  induction p with
  | nil => intro t _; rfl
  | cons a as ih =>
    intro t h
    cases t with
    | nil => simp [leadsWith] at h
    | cons c cs =>
      simp only [List.cons_append, leadsWith] at h ⊢
      by_cases hac : a = c
      · rw [if_pos hac] at h ⊢
        exact ih cs h
      · rw [if_neg hac] at h
        exact absurd h (by simp)

theorem findSplit_self_append (sep t : Str) (h : sep ≠ []) :
    findSplit sep (sep ++ t) = some ([], t) := by
  cases sep with
  | nil => exact absurd rfl h
  | cons a as =>
    show findSplit (a :: as) (a :: (as ++ t)) = some ([], t)
    simp only [findSplit]
    have hlw : leadsWith (a :: as) (a :: (as ++ t)) = true :=
      leadsWith_append_self (a :: as) t
    rw [if_pos hlw]
    rw [show (a :: (as ++ t)) = (a :: as) ++ t from rfl, List.drop_left]

theorem containsSub_cons (sep : Str) (c : Char) (s : Str) :
    containsSub sep (c :: s) = (leadsWith sep (c :: s) || containsSub sep s) := by
  unfold containsSub
  simp only [findSplit]
  by_cases h : leadsWith sep (c :: s) = true
  · simp [h]
  · cases hfs : findSplit sep s <;> simp [h, hfs]

theorem containsSub_cons_false {sep : Str} {c : Char} {s : Str}
    (h : containsSub sep (c :: s) = false) :
    leadsWith sep (c :: s) = false ∧ containsSub sep s = false := by
  rw [containsSub_cons] at h
  exact ⟨by cases hl : leadsWith sep (c :: s) <;> simp [hl] at h ⊢,
         by cases hc : containsSub sep s <;> simp [hc] at h ⊢⟩

theorem containsSub_fenceJson_imp (s : Str) :
    containsSub fenceJson s = true → containsSub fence3 s = true := by
  induction s with
  | nil => intro h; exact h
  | cons c cs ih =>
    intro h
    rw [containsSub_cons] at h ⊢
    rcases Bool.or_eq_true_iff.mp h with h1 | h2
    · have h1' : leadsWith (fence3 ++ ('j' :: 's' :: 'o' :: 'n' :: [])) (c :: cs) = true := by
        rw [← (by decide : fenceJson = fence3 ++ ('j' :: 's' :: 'o' :: 'n' :: []))]
        exact h1
      have hlw := leadsWith_of_append fence3 ('j' :: 's' :: 'o' :: 'n' :: []) (c :: cs) h1'
      simp [hlw]
    · simp [ih h2]

theorem leadsWith_btick3_extend (p' : Str) (c : Char) (X rest : Str)
    (hlw : leadsWith fence3 (c :: X) = false) :
    leadsWith (btick :: btick :: btick :: p') (c :: (X ++ '\n' :: rest)) = false := by
  rw [fence3_def] at hlw
  simp only [leadsWith] at hlw ⊢
  by_cases hc : btick = c
  · rw [if_pos hc] at hlw ⊢
    cases X with
    | nil =>
      simp only [List.nil_append, leadsWith]
      rw [if_neg (by decide : ¬ btick = '\n')]
    | cons d X' =>
      simp only [List.cons_append, leadsWith] at hlw ⊢
      by_cases hd : btick = d
      · rw [if_pos hd] at hlw ⊢
        cases X' with
        | nil =>
          simp only [List.nil_append, leadsWith]
          rw [if_neg (by decide : ¬ btick = '\n')]
        | cons e X'' =>
          simp only [List.cons_append, leadsWith] at hlw ⊢
          by_cases he : btick = e
          · rw [if_pos he] at hlw
            exact absurd hlw (by simp [leadsWith])
          · rw [if_neg he]
      · rw [if_neg hd]
  · rw [if_neg hc]

/-- Scanning `X ++ "\n``​`"` for `"``​`"` when `X` contains no fence: the
only occurrence is the trailing one. -/
theorem noBt3_scan (X : Str) (h : containsSub fence3 X = false) :
    findSplit fence3 (X ++ '\n' :: fence3) = some (X ++ ['\n'], []) := by
  induction X with
  | nil => decide
  | cons c X ih =>
    obtain ⟨hlw, hX⟩ := containsSub_cons_false h
    have hmain : leadsWith fence3 (c :: (X ++ '\n' :: fence3)) = false := by
      rw [fence3_def]
      exact leadsWith_btick3_extend [] c X fence3 hlw
    rw [List.cons_append]
    simp only [findSplit]
    rw [if_neg (by simp [hmain])]
    rw [ih hX]
    simp

/-- Scanning `X ++ "\n``​`"` for `"``​`json"` when `X` contains no fence:
there is no occurrence at all. -/
theorem noFj_scan (X : Str) (h : containsSub fence3 X = false) :
    findSplit fenceJson (X ++ '\n' :: fence3) = none := by
  induction X with
  | nil => decide
  | cons c X ih =>
    obtain ⟨hlw, hX⟩ := containsSub_cons_false h
    have hmain : leadsWith fenceJson (c :: (X ++ '\n' :: fence3)) = false := by
      rw [fenceJson_def]
      exact leadsWith_btick3_extend _ c X fence3 hlw
    rw [List.cons_append]
    simp only [findSplit]
    rw [if_neg (by simp [hmain])]
    rw [ih hX]

theorem beforeFirst_of_findSplit {sep s pre post : Str}
    (h : findSplit sep s = some (pre, post)) : beforeFirst sep s = pre := by
  unfold beforeFirst; rw [h]

theorem afterFirst_of_findSplit {sep s pre post : Str}
    (h : findSplit sep s = some (pre, post)) : afterFirst sep s = post := by
  unfold afterFirst; rw [h]

theorem containsSub_of_findSplit {sep s pre post : Str}
    (h : findSplit sep s = some (pre, post)) : containsSub sep s = true := by
  unfold containsSub; rw [h]; rfl

theorem pyStrip_eq_self {s : Str} (hh : s.dropWhile isWs = s)
    (ht : s.reverse.dropWhile isWs = s.reverse) : pyStrip s = s := by
  unfold pyStrip; rw [hh, ht, List.reverse_reverse]

theorem length_dropWhile_le (p : Char → Bool) (l : Str) :
    (l.dropWhile p).length ≤ l.length := by
  induction l with
  | nil => simp
  | cons a l ih =>
    rw [List.dropWhile_cons]
    split
    · exact le_trans ih (by simp)
    · simp

/-- Both ends of `wrapFence tag X` are backticks, so the outer `strip()`
is the identity there. -/
theorem pyStrip_wrapFence (r X : Str) :
    pyStrip (wrapFence (btick :: r) X) = wrapFence (btick :: r) X := by
  apply pyStrip_eq_self
  · rw [show wrapFence (btick :: r) X =
        btick :: (r ++ ('\n' :: (X ++ ('\n' :: fence3)))) from by simp [wrapFence]]
    exact List.dropWhile_cons_of_neg (by decide)
  · rw [show wrapFence (btick :: r) X =
        ((btick :: r) ++ '\n' :: (X ++ ['\n'])) ++ fence3 from by simp [wrapFence]]
    rw [List.reverse_append]
    rw [show fence3.reverse = btick :: btick :: btick :: [] from by decide]
    rw [List.cons_append]
    exact List.dropWhile_cons_of_neg (by decide)

/-- Stripping the inner newline wrapping recovers a trimmed body. -/
theorem strip_nl_wrap (X : Str) (h1 : X.dropWhile isWs = X)
    (h2 : X.reverse.dropWhile isWs = X.reverse) :
    pyStrip ('\n' :: (X ++ ['\n'])) = X := by
  unfold pyStrip
  rw [List.dropWhile_cons_of_pos (by decide : isWs '\n' = true)]
  cases X with
  | nil => decide
  | cons x X' =>
    have hx : isWs x = false := by
      by_contra hx
      rw [Bool.not_eq_false] at hx
      rw [List.dropWhile_cons_of_pos hx] at h1
      have hlen := congrArg List.length h1
      have hle := length_dropWhile_le isWs X'
      simp at hlen
      omega
    rw [List.cons_append, List.dropWhile_cons_of_neg (by simp [hx])]
    rw [show (x :: (X' ++ ['\n'])).reverse = '\n' :: (x :: X').reverse from by simp]
    rw [List.dropWhile_cons_of_pos (by decide : isWs '\n' = true)]
    rw [h2, List.reverse_reverse]

/-- The inner extraction applied to a fenced body recovers the body. -/
theorem extract_wrap_core (tag X : Str) (htag : tag ≠ [])
    (hb2 : containsSub fence3 ('\n' :: X) = false)
    (h1 : X.dropWhile isWs = X) (h2 : X.reverse.dropWhile isWs = X.reverse) :
    pyStrip (beforeFirst fence3 (afterFirst tag (wrapFence tag X))) = X := by
  have hfs : findSplit tag (wrapFence tag X) =
      some ([], '\n' :: (X ++ '\n' :: fence3)) := by
    unfold wrapFence
    exact findSplit_self_append tag _ htag
  rw [afterFirst_of_findSplit hfs]
  have hsc : findSplit fence3 ('\n' :: (X ++ '\n' :: fence3)) =
      some ('\n' :: (X ++ ['\n']), []) := by
    rw [show ('\n' :: (X ++ '\n' :: fence3)) = ('\n' :: X) ++ '\n' :: fence3 from by simp]
    rw [noBt3_scan ('\n' :: X) hb2]
    simp
  rw [beforeFirst_of_findSplit hsc]
  exact strip_nl_wrap X h1 h2

/-- A generically fenced block contains no `"``​`json"` occurrence when
the body contains no fence. -/
theorem no_fj_in_plain_wrap (X : Str) (hb2 : containsSub fence3 ('\n' :: X) = false) :
    containsSub fenceJson (wrapFence fence3 X) = false := by
  have hrest : findSplit fenceJson ('\n' :: (X ++ '\n' :: fence3)) = none := by
    rw [show ('\n' :: (X ++ '\n' :: fence3)) = ('\n' :: X) ++ '\n' :: fence3 from by simp]
    exact noFj_scan ('\n' :: X) hb2
  have hshape : wrapFence fence3 X =
      btick :: btick :: btick :: ('\n' :: (X ++ '\n' :: fence3)) := by
    rw [wrapFence]
    rw [show fence3 ++ ('\n' :: (X ++ ('\n' :: fence3))) =
        btick :: btick :: btick :: ('\n' :: (X ++ '\n' :: fence3)) from by
      rw [fence3_def]; rfl]
  rw [hshape, containsSub_cons, containsSub_cons, containsSub_cons]
  have c0 : leadsWith fenceJson
      (btick :: btick :: btick :: ('\n' :: (X ++ '\n' :: fence3))) = false := by
    rw [fenceJson_def]
    simp only [leadsWith]
    rw [if_pos trivial, if_pos trivial, if_pos trivial, if_neg (by decide : ¬ ('j' = '\n'))]
  have c1 : leadsWith fenceJson
      (btick :: btick :: ('\n' :: (X ++ '\n' :: fence3))) = false := by
    rw [fenceJson_def]
    simp only [leadsWith]
    rw [if_pos trivial, if_pos trivial, if_neg (by decide : ¬ btick = '\n')]
  have c2 : leadsWith fenceJson
      (btick :: ('\n' :: (X ++ '\n' :: fence3))) = false := by
    rw [fenceJson_def]
    simp only [leadsWith]
    rw [if_pos trivial, if_neg (by decide : ¬ btick = '\n')]
  rw [c0, c1, c2]
  unfold containsSub
  rw [hrest]
  rfl

/-! ## Claims -/

/-- Claim C1: for every prediction-result input and every behaviour of
the external generate call, when the call fails (raises any exception),
`generate_analysis`, `explain_region`, `generate_differential_diagnosis`
and `generate_risk_assessment` each return their deterministic
template/table fallback result (for `explain_region`, the disabled-mode
template when the external path is not attempted, the exception-path
template when it is); being total functions of the call's behaviour, they
propagate no exception past the Narrative Generator boundary. -/
theorem claim_C1 (svc : AIService) (env : ExtEnv) (result : PredictionResult)
    (rn rf : String) (a : ℚ) (p : String) (c : ℚ) (tt : Option String)
    (hfail : env.response = none) :
    generate_analysis svc env result = _generate_template result ∧
    (explain_region svc env rn rf a p c = explainRegionFallback rn rf a p c ∨
     explain_region svc env rn rf a p c = explainRegionExcFallback rn rf a p) ∧
    generate_differential_diagnosis svc env p c tt =
      entriesToJson (_generate_template_differential p tt) ∧
    generate_risk_assessment svc env p c tt =
      riskToJson (_generate_template_risk p c tt) := by
  by_cases h : (svc.use_ai && svc.hasModel) = true
  · exact ⟨by simp [generate_analysis, h, hfail],
      Or.inr (by simp [explain_region, h, hfail]),
      by simp [generate_differential_diagnosis, h, hfail],
      by simp [generate_risk_assessment, h, hfail]⟩
  · exact ⟨by simp [generate_analysis, h, hfail],
      Or.inl (by simp [explain_region, h, hfail]),
      by simp [generate_differential_diagnosis, h, hfail],
      by simp [generate_risk_assessment, h, hfail]⟩

theorem claim_C1_witness :
    (ExtEnv.mk none).response = none ∧
    generate_analysis ⟨true, true, "gemini-pro"⟩ ⟨none⟩ ⟨"tumor", 9/10, none, 0⟩ =
      _generate_template ⟨"tumor", 9/10, none, 0⟩ :=
  ⟨rfl, (claim_C1 ⟨true, true, "gemini-pro"⟩ ⟨none⟩ ⟨"tumor", 9/10, none, 0⟩
    "Frontal Lobe" "Motor control" (3/10) "tumor" (9/10) none rfl).1⟩

/-- Claim C3: when external mode is disabled (the `use_ai` flag is false
or no client model was constructed), every operation of the generator is
deterministic: identical arguments give identical outputs, independent of
the external environment. -/
theorem claim_C3 (svc : AIService) (e1 e2 : ExtEnv)
    (result : PredictionResult) (rn rf : String) (a : ℚ) (p : String)
    (c : ℚ) (tt : Option String)
    (hdis : svc.use_ai = false ∨ svc.hasModel = false) :
    generate_analysis svc e1 result = generate_analysis svc e2 result ∧
    explain_region svc e1 rn rf a p c = explain_region svc e2 rn rf a p c ∧
    generate_differential_diagnosis svc e1 p c tt =
      generate_differential_diagnosis svc e2 p c tt ∧
    generate_risk_assessment svc e1 p c tt =
      generate_risk_assessment svc e2 p c tt := by
  have h : (svc.use_ai && svc.hasModel) = false := by
    rcases hdis with h | h <;> simp [h]
  refine ⟨?_, ?_, ?_, ?_⟩ <;>
    simp [generate_analysis, explain_region, generate_differential_diagnosis,
          generate_risk_assessment, h]

theorem claim_C3_witness :
    ((⟨false, false, "gemini-pro"⟩ : AIService).use_ai = false ∨
     (⟨false, false, "gemini-pro"⟩ : AIService).hasModel = false) ∧
    generate_differential_diagnosis ⟨false, false, "gemini-pro"⟩ ⟨some ("[1]")⟩
        "tumor" (4/5) none =
      generate_differential_diagnosis ⟨false, false, "gemini-pro"⟩ ⟨none⟩
        "tumor" (4/5) none :=
  ⟨Or.inl rfl,
   (claim_C3 ⟨false, false, "gemini-pro"⟩ ⟨some ("[1]")⟩ ⟨none⟩
     ⟨"tumor", 4/5, none, 0⟩ "r" "f" 0 "tumor" (4/5) none (Or.inl rfl)).2.2.1⟩

/-- Claim C4: at construction the generation mode is resolved exactly
once as the conjunction (enable flag) AND (credential present) AND
(client library available) AND (client construction succeeded): the guard
`self.use_ai and self.model` that decides whether an operation attempts
the external path equals exactly that conjunction, and whenever it is
false every operation takes its template path — operations branch only on
the construction-time state they receive. -/
theorem claim_C4 (env : InitEnv) (e : ExtEnv) (result : PredictionResult)
    (rn rf : String) (a : ℚ) (p : String) (c : ℚ) (tt : Option String) :
    externalAttempted (AIService.init env) =
      ((pyLower env.useAiRaw == "true") && !(env.apiKey == "") &&
        env.genaiAvailable && env.constructOk) ∧
    (externalAttempted (AIService.init env) = false →
      generate_analysis (AIService.init env) e result = _generate_template result ∧
      explain_region (AIService.init env) e rn rf a p c =
        explainRegionFallback rn rf a p c ∧
      generate_differential_diagnosis (AIService.init env) e p c tt =
        entriesToJson (_generate_template_differential p tt) ∧
      generate_risk_assessment (AIService.init env) e p c tt =
        riskToJson (_generate_template_risk p c tt)) := by
  constructor
  · unfold AIService.init externalAttempted
    by_cases h1 : (pyLower env.useAiRaw == "true") = true <;>
      by_cases h2 : (env.apiKey == "") = true <;>
        by_cases h3 : env.genaiAvailable = true <;>
          by_cases h4 : env.constructOk = true <;>
            simp [h1, h2, h3, h4]
  · intro h
    unfold externalAttempted at h
    refine ⟨?_, ?_, ?_, ?_⟩ <;>
      simp [generate_analysis, explain_region, generate_differential_diagnosis,
            generate_risk_assessment, h]

theorem claim_C4_witness :
    externalAttempted (AIService.init ⟨"key", "gemini-pro", "true", true, false⟩) = false ∧
    generate_analysis (AIService.init ⟨"key", "gemini-pro", "true", true, false⟩)
        ⟨some ("external text")⟩ ⟨"tumor", 9/10, none, 0⟩ =
      _generate_template ⟨"tumor", 9/10, none, 0⟩ := by
  have h : externalAttempted (AIService.init ⟨"key", "gemini-pro", "true", true, false⟩) = false := by
    decide
  exact ⟨h, ((claim_C4 ⟨"key", "gemini-pro", "true", true, false⟩
    ⟨some ("external text")⟩ ⟨"tumor", 9/10, none, 0⟩ "r" "f" 0 "tumor" (9/10) none).2 h).1⟩

/-- Claim C5: for each of the four defined (prediction, tumor_type)
combinations — (tumor, Glioma), (tumor, Meningioma), (tumor, any
other/None), (no_tumor, None) — the fallback differential has 3 to 4
entries whose likelihoods sum to exactly 100. -/
theorem claim_C5 (tt : Option String) (hg : tt ≠ some ("Glioma"))
    (hm : tt ≠ some ("Meningioma")) :
    (sumLikelihood (_generate_template_differential "tumor" (some ("Glioma"))) = 100 ∧
     3 ≤ (_generate_template_differential "tumor" (some ("Glioma"))).length ∧
     (_generate_template_differential "tumor" (some ("Glioma"))).length ≤ 4) ∧
    (sumLikelihood (_generate_template_differential "tumor" (some ("Meningioma"))) = 100 ∧
     3 ≤ (_generate_template_differential "tumor" (some ("Meningioma"))).length ∧
     (_generate_template_differential "tumor" (some ("Meningioma"))).length ≤ 4) ∧
    (sumLikelihood (_generate_template_differential "tumor" tt) = 100 ∧
     3 ≤ (_generate_template_differential "tumor" tt).length ∧
     (_generate_template_differential "tumor" tt).length ≤ 4) ∧
    (sumLikelihood (_generate_template_differential "no_tumor" none) = 100 ∧
     3 ≤ (_generate_template_differential "no_tumor" none).length ∧
     (_generate_template_differential "no_tumor" none).length ≤ 4) := by
  refine ⟨by decide, by decide, ?_, by decide⟩
  unfold _generate_template_differential
  rw [if_pos rfl, if_neg hg, if_neg hm]
  decide

theorem claim_C5_witness :
    ((none : Option String) ≠ some ("Glioma")) ∧
    sumLikelihood (_generate_template_differential "tumor" none) = 100 :=
  ⟨by decide, (claim_C5 none (by decide) (by decide)).2.2.1.1⟩

/-- Claim C9: for every confidence and every prediction other than
`"tumor"`, `TumorClassifier.classify` returns the fixed no-tumor record
and consumes no randomness (the result is a constant independent of the
random source). -/
theorem claim_C9 (rng : RandomSource) (confidence : ℚ) (prediction : String)
    (h : prediction ≠ "tumor") :
    classify rng confidence prediction =
      ⟨none, 0, [], "", none, "No tumor detected"⟩ := by
  unfold classify
  rw [if_pos h]

theorem claim_C9_witness :
    ("no_tumor" ≠ "tumor") ∧
    classify ⟨0, 0⟩ (9/10) "no_tumor" =
      ⟨none, 0, [], "", none, "No tumor detected"⟩ :=
  ⟨by decide, claim_C9 ⟨0, 0⟩ (9/10) "no_tumor" (by decide)⟩

/-- Claim C10: the template risk assessment is independent of the
detection confidence, and hence in disabled mode
`generate_risk_assessment` depends only on `prediction` and
`tumor_type`. -/
theorem claim_C10 (svc : AIService) (e1 e2 : ExtEnv) (p : String)
    (c1 c2 : ℚ) (tt : Option String)
    (hdis : (svc.use_ai && svc.hasModel) = false) :
    _generate_template_risk p c1 tt = _generate_template_risk p c2 tt ∧
    generate_risk_assessment svc e1 p c1 tt =
      generate_risk_assessment svc e2 p c2 tt := by
  refine ⟨rfl, ?_⟩
  simp only [generate_risk_assessment, hdis]
  rfl

theorem claim_C10_witness :
    ((⟨false, false, "gemini-pro"⟩ : AIService).use_ai &&
      (⟨false, false, "gemini-pro"⟩ : AIService).hasModel) = false ∧
    generate_risk_assessment ⟨false, false, "gemini-pro"⟩ ⟨none⟩
        "tumor" (1/2) (some ("Glioma")) =
      generate_risk_assessment ⟨false, false, "gemini-pro"⟩ ⟨some ("x")⟩
        "tumor" (3/4) (some ("Glioma")) :=
  ⟨rfl, (claim_C10 ⟨false, false, "gemini-pro"⟩ ⟨none⟩ ⟨some ("x")⟩
    "tumor" (1/2) (3/4) (some ("Glioma")) rfl).2⟩

/-- Claim C7: `explain_region` buckets the attention score into exactly
three levels by the same rule on the template path (`attentionLevel`,
used by both fallback templates) and in the external prompt's framing
(`focusPhrase`): high iff `> 0.5`, moderate iff `0.2 < a ≤ 0.5`, low
otherwise; in particular 0.6, 0.3 and 0.1 land in the high, moderate and
low buckets on both paths. -/
theorem claim_C7 (a : ℚ) :
    (attentionLevel a = "high" ↔ 1/2 < a) ∧
    (attentionLevel a = "moderate" ↔ (1/5 < a ∧ a ≤ 1/2)) ∧
    (attentionLevel a = "low" ↔ a ≤ 1/5) ∧
    (focusPhrase a = "focused heavily" ↔ 1/2 < a) ∧
    (focusPhrase a = "showed moderate interest in" ↔ (1/5 < a ∧ a ≤ 1/2)) ∧
    (focusPhrase a = "showed minimal focus on" ↔ a ≤ 1/5) ∧
    attentionLevel (3/5) = "high" ∧
    attentionLevel (3/10) = "moderate" ∧
    attentionLevel (1/10) = "low" ∧
    focusPhrase (3/5) = "focused heavily" ∧
    focusPhrase (3/10) = "showed moderate interest in" ∧
    focusPhrase (1/10) = "showed minimal focus on" := by
  have i1 : attentionLevel a = "high" ↔ 1/2 < a := by
    unfold attentionLevel
    split_ifs with h1 h2
    · exact iff_of_true rfl h1
    · exact iff_of_false (by decide) h1
    · exact iff_of_false (by decide) h1
  have i2 : attentionLevel a = "moderate" ↔ (1/5 < a ∧ a ≤ 1/2) := by
    unfold attentionLevel
    split_ifs with h1 h2
    · exact iff_of_false (by decide) (fun hc => absurd h1 (not_lt.mpr hc.2))
    · exact iff_of_true rfl ⟨h2, le_of_not_lt h1⟩
    · exact iff_of_false (by decide) (fun hc => h2 hc.1)
  have i3 : attentionLevel a = "low" ↔ a ≤ 1/5 := by
    unfold attentionLevel
    split_ifs with h1 h2
    · exact iff_of_false (by decide)
        (fun hc => absurd h1 (not_lt.mpr (hc.trans (by norm_num))))
    · exact iff_of_false (by decide) (fun hc => absurd h2 (not_lt.mpr hc))
    · exact iff_of_true rfl (le_of_not_lt h2)
  have i4 : focusPhrase a = "focused heavily" ↔ 1/2 < a := by
    unfold focusPhrase
    split_ifs with h1 h2
    · exact iff_of_true rfl h1
    · exact iff_of_false (by decide) h1
    · exact iff_of_false (by decide) h1
  have i5 : focusPhrase a = "showed moderate interest in" ↔ (1/5 < a ∧ a ≤ 1/2) := by
    unfold focusPhrase
    split_ifs with h1 h2
    · exact iff_of_false (by decide) (fun hc => absurd h1 (not_lt.mpr hc.2))
    · exact iff_of_true rfl ⟨h2, le_of_not_lt h1⟩
    · exact iff_of_false (by decide) (fun hc => h2 hc.1)
  have i6 : focusPhrase a = "showed minimal focus on" ↔ a ≤ 1/5 := by
    unfold focusPhrase
    split_ifs with h1 h2
    · exact iff_of_false (by decide)
        (fun hc => absurd h1 (not_lt.mpr (hc.trans (by norm_num))))
    · exact iff_of_false (by decide) (fun hc => absurd h2 (not_lt.mpr hc))
    · exact iff_of_true rfl (le_of_not_lt h2)
  refine ⟨i1, i2, i3, i4, i5, i6, ?_, ?_, ?_, ?_, ?_, ?_⟩ <;>
    norm_num [attentionLevel, focusPhrase]

theorem claim_C7_witness :
    attentionLevel (3/5) = "high" ∧ focusPhrase (1/10) = "showed minimal focus on" :=
  ⟨(claim_C7 0).2.2.2.2.2.2.1, (claim_C7 0).2.2.2.2.2.2.2.2.2.2.2⟩

/-- Claim C8: every point of the unit square maps to one of the seven
named regions, the trailing `"Brain Tissue"` default is unreachable, and
in particular (0.1, 0.1) maps to the Frontal Lobe and (0.5, 0.8) maps to
the Brainstem under the code's bottom-row rule (center first, then
left/right, else Occipital). -/
theorem claim_C8 :
    (∀ x y : ℚ, 0 ≤ x → x ≤ 1 → 0 ≤ y → y ≤ 1 →
      identify_region x y ∈ sevenRegions ∧
      identify_region x y ≠ brainTissueFallback) ∧
    identify_region (1/10) (1/10) = frontalLobe ∧
    identify_region (1/2) (4/5) = brainstem := by
  refine ⟨?_, by norm_num [identify_region], by norm_num [identify_region]⟩
  intro x y _ _ _ _
  unfold identify_region
  split_ifs <;> exact ⟨by decide, by decide⟩

theorem claim_C8_witness :
    (0 ≤ (1:ℚ)/2) ∧ identify_region (1/2) (1/2) ∈ sevenRegions :=
  ⟨by norm_num,
   (claim_C8.1 (1/2) (1/2) (by norm_num) (by norm_num) (by norm_num) (by norm_num)).1⟩

/-- Claim C2 counterexample: with the external call returning `["x"]` —
text that decodes as a JSON array but is not an array of
DifferentialEntry objects (a schema mismatch) —
`generate_differential_diagnosis` returns the decoded array verbatim, not
the fallback-table result, so the claimed fallback on schema mismatch is
false and callers can observe a schema difference between the two
paths. -/
theorem claim_C2_counterexample :
    specDifferentialShape (Json.arr [Json.str (['x'])]) = false ∧
    generate_differential_diagnosis ⟨true, true, "gemini-pro"⟩
        ⟨some ("[\"x\"]")⟩ "tumor" (9/10) (some ("Glioma")) =
      Json.arr [Json.str (['x'])] ∧
    generate_differential_diagnosis ⟨true, true, "gemini-pro"⟩
        ⟨some ("[\"x\"]")⟩ "tumor" (9/10) (some ("Glioma")) ≠
      entriesToJson (_generate_template_differential "tumor" (some ("Glioma"))) := by
  refine ⟨rfl, rfl, fun h => absurd (congrArg pyLen h) (by decide)⟩

/-- Claim C2 (amended): on the external path, the fallback-table result
is returned exactly when the external call raises, the fence-stripped
text fails to decode as JSON, or the decoded value breaks the
success-logging step (`len(...)` for the differential — numbers, booleans
and null; `.get(...)` for the risk — any non-object); any other decoded
value (for the differential: any array, object or string; for the risk:
any object) is returned verbatim with no schema validation, so callers
can observe a schema difference between the externally-generated and
template-generated paths. -/
theorem claim_C2 (svc : AIService) (e : ExtEnv) (p : String) (c : ℚ)
    (tt : Option String) (hon : (svc.use_ai && svc.hasModel) = true) :
    (e.response = none →
      generate_differential_diagnosis svc e p c tt =
        entriesToJson (_generate_template_differential p tt) ∧
      generate_risk_assessment svc e p c tt =
        riskToJson (_generate_template_risk p c tt)) ∧
    (∀ s, e.response = some s →
      (jsonParse (extractJson s.toList) = none →
        generate_differential_diagnosis svc e p c tt =
          entriesToJson (_generate_template_differential p tt) ∧
        generate_risk_assessment svc e p c tt =
          riskToJson (_generate_template_risk p c tt)) ∧
      (∀ v, jsonParse (extractJson s.toList) = some v →
        (generate_differential_diagnosis svc e p c tt =
          if (pyLen v).isSome then v
          else entriesToJson (_generate_template_differential p tt)) ∧
        (generate_risk_assessment svc e p c tt =
          if isPyDict v then v
          else riskToJson (_generate_template_risk p c tt)))) := by
  refine ⟨fun h => ⟨?_, ?_⟩, fun s hs => ⟨fun hp => ⟨?_, ?_⟩, fun v hv => ⟨?_, ?_⟩⟩⟩
  · simp [generate_differential_diagnosis, hon, h]
  · simp [generate_risk_assessment, hon, h]
  · have hp' : jsonParse (extractJson s.data) = none := hp
    simp [generate_differential_diagnosis, hon, hs, hp']
  · have hp' : jsonParse (extractJson s.data) = none := hp
    simp [generate_risk_assessment, hon, hs, hp']
  · have hv' : jsonParse (extractJson s.data) = some v := hv
    cases hl : pyLen v <;>
      simp [generate_differential_diagnosis, hon, hs, hv', hl]
  · have hv' : jsonParse (extractJson s.data) = some v := hv
    cases hd : isPyDict v <;>
      simp [generate_risk_assessment, hon, hs, hv', hd]

theorem claim_C2_witness :
    ((⟨true, true, "gemini-pro"⟩ : AIService).use_ai &&
      (⟨true, true, "gemini-pro"⟩ : AIService).hasModel) = true ∧
    generate_differential_diagnosis ⟨true, true, "gemini-pro"⟩
        ⟨some ("[\"x\"]")⟩ "no_tumor" (1/2) none = Json.arr [Json.str (['x'])] := by
  refine ⟨rfl, ?_⟩
  have h := (((claim_C2 ⟨true, true, "gemini-pro"⟩ ⟨some ("[\"x\"]")⟩
    "no_tumor" (1/2) none rfl).2 ("[\"x\"]") rfl).2 (Json.arr [Json.str (['x'])]) rfl).1
  rw [h]
  rfl

/-- Claim C6 counterexample: the JSON body `["``​`json"]` — a valid JSON
array containing a fence-marker string, presented alone with no fence —
is mangled by the fence-stripping step: the stripped text is `"]`, which
no longer decodes, while the body itself decodes to the array; so the
claim does not hold for every JSON body. -/
theorem claim_C6_counterexample :
    jsonParse (("[\"```json\"]").toList) =
      some (Json.arr [Json.str (("```json").toList)]) ∧
    extractJson (("[\"```json\"]").toList) ≠ (("[\"```json\"]").toList) ∧
    jsonParse (extractJson (("[\"```json\"]").toList)) = none := by
  refine ⟨rfl, by decide, rfl⟩

/-- Claim C6 (amended): for every whitespace-trimmed JSON body `X` that
does not contain the fence marker `"``​`"` as a substring, the pre-parse
fence-stripping step of `generate_differential_diagnosis` and
`generate_risk_assessment` recovers `X` exactly, whether the response is
`X` alone, `X` wrapped in a fenced block labeled for JSON, or `X` wrapped
in a generically fenced block — so structural parsing of the stripped
text coincides with parsing `X` directly. -/
theorem claim_C6 (X : Str) (hb : containsSub fence3 X = false)
    (h1 : X.dropWhile isWs = X) (h2 : X.reverse.dropWhile isWs = X.reverse) :
    extractJson X = X ∧
    extractJson (wrapFence fenceJson X) = X ∧
    extractJson (wrapFence fence3 X) = X := by
  have hstrip : pyStrip X = X := pyStrip_eq_self h1 h2
  have hb2 : containsSub fence3 ('\n' :: X) = false := by
    have hlw : leadsWith fence3 ('\n' :: X) = false := by
      rw [fence3_def]
      simp only [leadsWith]
      rw [if_neg (by decide : ¬ btick = '\n')]
    rw [containsSub_cons, hlw, hb]
    rfl
  refine ⟨?_, ?_, ?_⟩
  · have hfj : containsSub fenceJson X = false := by
      cases hcf : containsSub fenceJson X
      · rfl
      · exact absurd (containsSub_fenceJson_imp X hcf) (by simp [hb])
    unfold extractJson
    rw [hstrip, hfj, hb]
    simp
  · have hw : pyStrip (wrapFence fenceJson X) = wrapFence fenceJson X := by
      rw [show fenceJson = btick :: (btick :: btick :: 'j' :: 's' :: 'o' :: 'n' :: [])
        from by decide]
      exact pyStrip_wrapFence _ X
    have hc : containsSub fenceJson (wrapFence fenceJson X) = true := by
      unfold wrapFence
      exact containsSub_of_findSplit (findSplit_self_append fenceJson _ (by decide))
    unfold extractJson
    rw [hw, hc]
    simp only [if_pos trivial, if_true]
    exact extract_wrap_core fenceJson X (by decide) hb2 h1 h2
  · have hw : pyStrip (wrapFence fence3 X) = wrapFence fence3 X := by
      rw [show fence3 = btick :: (btick :: btick :: []) from by decide]
      exact pyStrip_wrapFence _ X
    have hnofj : containsSub fenceJson (wrapFence fence3 X) = false :=
      no_fj_in_plain_wrap X hb2
    have hc3 : containsSub fence3 (wrapFence fence3 X) = true := by
      unfold wrapFence
      exact containsSub_of_findSplit (findSplit_self_append fence3 _ (by decide))
    unfold extractJson
    rw [hw, hnofj, hc3]
    simp only [Bool.false_eq_true, if_false, if_pos trivial, if_true]
    exact extract_wrap_core fence3 X (by decide) hb2 h1 h2

theorem claim_C6_witness :
    containsSub fence3 (("[1, 2]").toList) = false ∧
    extractJson (wrapFence fenceJson (("[1, 2]").toList)) = ("[1, 2]").toList ∧
    extractJson (wrapFence fence3 (("[1, 2]").toList)) = ("[1, 2]").toList :=
  ⟨by decide,
   (claim_C6 (("[1, 2]").toList) (by decide) (by decide) (by decide)).2.1,
   (claim_C6 (("[1, 2]").toList) (by decide) (by decide) (by decide)).2.2⟩

end BTD
